import Mathlib

/-!
Verification of the `mkdisk` disk-image builder (src/src/util/mkdisk/src/main.rs).

The repository ships only the driver (`main.rs`); the `disk` and `fs` modules it
uses are not present. Definitions translated from the driver source are marked
with the source line numbers; the missing Virtual Disk / partition-table codec /
filesystem operations are modelled from the specification and carry a doc
comment starting with `Modelled from the spec:`.

Bytes are modelled as `Nat` (the driver never overflows a `u8` value it does not
itself read from a host file), machine `usize` arithmetic as `Nat` (no claim
involves overflow), and Rust strings as Lean `String` restricted to ASCII (the
only characters the driver compares against are ASCII).
-/

set_option autoImplicit false

namespace Mkdisk

/-! ## Size-string parsing (`parse_size`, main.rs lines 188-218) -/

/-- Errors raised by `parse_size`.  In the source both cases are `panic!` calls;
`badNumber` is `"Unable to interpret size"` (line 192) and `unknownSuffix` is
`"Unknown unit suffix"` (line 214), carrying exactly the text each panic prints. -/
inductive SizeError where
  | badNumber (s : String)
  | unknownSuffix (unit : String)
  deriving DecidableEq, Repr

/-- Value of a decimal digit string, most significant first: the semantics of
Rust `str::parse::<usize>` on an all-digit string (overflow ignored: `Nat`). -/
def digitsVal (l : List Char) : Nat :=
  l.foldl (fun a c => a * 10 + (c.toNat - 48)) 0

/-- Rust `str::parse::<usize>` on the collected numeric prefix of the size
string: fails on the empty string (line 192's panic). The collected characters
are all decimal digits by construction (`take_while is_numeric`, ASCII model),
so no other failure case arises. -/
def parseNum (l : List Char) : Option Nat :=
  if l.isEmpty then none else some (digitsVal l)

/-- The `UNITS` table of main.rs lines 194-198, in source order:
`("kb", 1_000), ("kib", 1 << 10), ("mb", 1_000_000), ("mib", 1 << 20)`. -/
def UNITS : List (String × Nat) :=
  [("kb", 1000), ("kib", 1 <<< 10), ("mb", 1000000), ("mib", 1 <<< 20)]

/-- `parse_size` (main.rs lines 188-218): split the string into the maximal
numeric prefix and the rest, parse the prefix as a number, lowercase the rest
and look it up in `UNITS`; multiply on success (the source's
`for &(suffix, factor) in &UNITS` loop with `break` is a first-match lookup,
i.e. `List.find?`), panic with the unknown suffix otherwise. -/
def parse_size (s : String) : Except SizeError Nat :=
  let numChars := s.data.takeWhile Char.isDigit
  let unit : String := ⟨(s.data.dropWhile Char.isDigit).map Char.toLower⟩
  match parseNum numChars with
  | none => .error (.badNumber s)
  | some num =>
    match UNITS.find? (fun p => p.1 = unit) with
    | some p => .ok (num * p.2)
    | none => .error (.unknownSuffix unit)

/-! ## Virtual Disk and partition-table codec

The `disk` module is not in the repository; it is modelled from spec sections
3, 4.1, 4.2.  A sector is a 512-byte buffer, modelled as a `List Nat`; the
partition table (physically the fixed-offset descriptor slots of sector 0) is
kept as an abstract field since the spec fixes no byte offsets. -/

/-- Errors of the Virtual Disk and codec: the spec's BoundsError taxonomy
(invalid sector index, invalid partition slot, partition exceeding the disk). -/
inductive BoundsError where
  | sectorOutOfRange (index count : Nat)
  | badSlot (slot : Nat)
  | exceedsDisk
  deriving DecidableEq, Repr

/-- Partition formats; the driver only uses `Fat32` (main.rs line 136). -/
inductive Format where
  | Fat32
  deriving DecidableEq, Repr

/-- `PartitionInfo` as constructed by the driver (main.rs lines 135-140),
matching the spec's Partition Descriptor `{format, start, size, bootable}`. -/
structure PartitionInfo where
  format : Format
  size : Nat
  start : Nat
  bootable : Bool
  deriving DecidableEq, Repr

/-- Modelled from the spec: the Virtual Disk, "an ordered sequence of
fixed-size (512-byte) sectors, count fixed at construction, initially
zero-filled" (§3), plus the descriptor slots of sector 0 kept abstractly. -/
structure RamDisk where
  sector_count : Nat
  data : Nat → List Nat
  table : Nat → Option PartitionInfo

/-- Modelled from the spec: `new(sector_count)` returns a zero-filled disk
(§4.1) with an empty partition table. -/
def RamDisk.new (sector_count : Nat) : RamDisk :=
  { sector_count := sector_count
    data := fun _ => List.replicate 512 0
    table := fun _ => none }

/-- Modelled from the spec: `write_sector(index, bytes[512])` overwrites a
sector, failing with an out-of-range error if `index ≥ sector_count` (§4.1). -/
def RamDisk.write_sector (d : RamDisk) (index : Nat) (bytes : List Nat) :
    Except BoundsError RamDisk :=
  if index < d.sector_count then
    .ok { d with data := fun j => if j = index then bytes else d.data j }
  else
    .error (.sectorOutOfRange index d.sector_count)

/-- Modelled from the spec: reading sector `index` back (the read half of §8's
write/read round-trip property), with the same bounds rule as `write_sector`. -/
def RamDisk.read_sector (d : RamDisk) (index : Nat) : Except BoundsError (List Nat) :=
  if index < d.sector_count then .ok (d.data index)
  else .error (.sectorOutOfRange index d.sector_count)

/-- Modelled from the spec: `set_descriptor(disk, slot, descriptor)` (§4.2),
called `set_pinfo` by the driver (main.rs line 141).  "Fails if `slot ∉ [0,3]`
or bounds invariant violated", the invariant being
`start + size ≤ disk.sector_count` (§3). -/
def set_pinfo (d : RamDisk) (slot : Nat) (pinfo : PartitionInfo) :
    Except BoundsError RamDisk :=
  if slot ≥ 4 then .error (.badSlot slot)
  else if pinfo.start + pinfo.size ≤ d.sector_count then
    .ok { d with table := fun j => if j = slot then some pinfo else d.table j }
  else .error .exceedsDisk

/-! ## The driver's bootloader-copy loop (main.rs lines 119-132)

The loop reads successive 512-byte chunks from the bootloader file into a
zero-initialised sector buffer, stopping at end of file (`Ok(0)`), and writes
each buffer to sector `i`, incrementing `i`; the result of `write_sector` is
discarded.  With the bootloader contents given as a byte list, the chunks read
are exactly `chunk512 bytes 0, …, chunk512 bytes (k-1)` for
`k = ⌈bytes.length / 512⌉`, each zero-padded to 512 bytes. -/

/-- The `i`-th 512-byte chunk of `bytes`, zero-padded to length 512: the sector
buffer of loop iteration `i` (main.rs lines 121-126). -/
def chunk512 (bytes : List Nat) (i : Nat) : List Nat :=
  let c := (bytes.drop (512 * i)).take 512
  c ++ List.replicate (512 - c.length) 0

/-- `disk.write_sector(i, &sector);` with the `Result` discarded
(main.rs line 130): on a bounds error the disk is left unchanged. -/
def writeSectorLossy (d : RamDisk) (i : Nat) (bytes : List Nat) : RamDisk :=
  match d.write_sector i bytes with
  | .ok d' => d'
  | .error _ => d

/-- The first `m` iterations of the bootloader-copy loop: write the zero-padded
`i`-th chunk to sector `i` for `i = 0, …, m - 1`. -/
def copyBootAux (bytes : List Nat) (m : Nat) (d : RamDisk) : RamDisk :=
  (List.range m).foldl (fun acc i => writeSectorLossy acc i (chunk512 bytes i)) d

/-- The bootloader-copy loop (main.rs lines 119-132): the loop body runs once
per chunk read before `read` returns `Ok(0)`, i.e. `⌈b/512⌉` times. -/
def copyBoot (d : RamDisk) (bytes : List Nat) : RamDisk :=
  copyBootAux bytes ((bytes.length + 511) / 512) d

/-! ## Configuration (`Config::new`, main.rs lines 62-100)

`docopt`'s `get_str` returns `""` for an absent option, so absent and empty
arguments coincide.  Host-filesystem success of `File::open` / `File::create`
is modelled by boolean oracles. -/

/-- Last index of character `c` in `l`, if any. -/
def lastIdxOf (c : Char) (l : List Char) : Option Nat :=
  match l.reverse.findIdx? (fun x => x == c) with
  | none => none
  | some j => some (l.length - 1 - j)

/-- Drop trailing `/` characters (Rust path components ignore them). -/
def rstripSlash (l : List Char) : List Char :=
  (l.reverse.dropWhile (fun x => x == '/')).reverse

/-- Rust `PathBuf::set_extension` (used at main.rs line 81): replace the
extension of the final path component, or append one if the component has
none.  The file stem is the part of the name before its last `.`, except that
a name whose only `.` is leading (e.g. `.bashrc`) is all stem.  A path with no
final component (empty, or `.` / `..`) is left unchanged, as Rust's
`set_extension` returns `false` without modifying the path. -/
def set_extension (p : String) (ext : String) : String :=
  let q := rstripSlash p.data
  let split : List Char × List Char :=
    match lastIdxOf '/' q with
    | none => ([], q)
    | some i => (q.take (i + 1), q.drop (i + 1))
  let dir := split.1
  let name := split.2
  if name = [] ∨ name = ['.'] ∨ name = ['.', '.'] then p
  else
    let newName :=
      match lastIdxOf '.' name with
      | none => name ++ '.' :: ext.data
      | some 0 => name ++ '.' :: ext.data
      | some (i + 1) => name.take (i + 1) ++ '.' :: ext.data
    ⟨dir ++ newName⟩

/-- The argument map the driver reads (main.rs lines 64-85): `get_str` yields
`""` for an option that was not supplied; `-s` has docopt default `"4MiB"`. -/
structure ArgvMap where
  size : String
  boot : String
  out : String
  dir : String
  deriving DecidableEq, Repr

/-- Host-filesystem oracle: whether `File::open` (line 72) and `File::create`
(line 87) succeed on a given path. -/
structure HostFS where
  openable : String → Bool
  creatable : String → Bool

/-- Configuration errors; each constructor is one of the `panic!` sites of
`Config::new` (lines 67, 73, 88) or a size-parse failure propagated from
`parse_size` (line 64). -/
inductive ConfigError where
  | badSize (e : SizeError)
  | missingBootloader
  | unreadableBootloader (path : String)
  | uncreatableOut (path : String)
  deriving DecidableEq, Repr

/-- The fields of `Config` relevant to the build (main.rs lines 50-59); the
open `File` handles are represented by their paths. -/
structure Config where
  dsize : Nat
  src : String
  boot_path : String
  out_path : String
  deriving DecidableEq, Repr

/-- `Config::new` (main.rs lines 62-100), in source order: parse `-s`; panic if
`-b` is empty (absent) or unopenable; default `-o` to the source directory with
its extension replaced by `disk` (line 81); panic if the output file cannot be
created. -/
def Config.new (args : ArgvMap) (hfs : HostFS) : Except ConfigError Config :=
  match parse_size args.size with
  | .error e => .error (.badSize e)
  | .ok dsize =>
    if args.boot = "" then .error .missingBootloader
    else if !hfs.openable args.boot then .error (.unreadableBootloader args.boot)
    else
      let src := args.dir
      let out_path := if args.out = "" then set_extension src "disk" else args.out
      if !hfs.creatable out_path then .error (.uncreatableOut out_path)
      else .ok { dsize := dsize, src := src, boot_path := args.boot, out_path := out_path }

/-! ## The driver's disk-setup phase (`Config::exec`, main.rs lines 102-146) -/

/-- Errors of the setup phase: the `assert!(sectors >= 128)` of line 115, or a
codec error surfaced by the `.unwrap()` of line 141. -/
inductive ExecError where
  | diskTooSmall
  | bounds (e : BoundsError)
  deriving DecidableEq, Repr

/-- The disk-setup phase of `Config::exec` (main.rs lines 112-141): compute
`sectors = dsize / 512`, reject fewer than 128 sectors, create the zero-filled
disk, copy the bootloader into the leading sectors, and write the single
partition descriptor `{Fat32, size: sectors - 64, start: 64, bootable: true}`
into slot 0. -/
def Config.execSetup (cfg : Config) (bootBytes : List Nat) : Except ExecError RamDisk :=
  let sectors := cfg.dsize / 512
  if sectors < 128 then .error .diskTooSmall
  else
    let disk := RamDisk.new sectors
    let disk := copyBoot disk bootBytes
    let pinfo : PartitionInfo :=
      { format := .Fat32, size := sectors - 64, start := 64, bootable := true }
    match set_pinfo disk 0 pinfo with
    | .ok d => .ok d
    | .error e => .error (.bounds e)

/-! ## Directory-tree mirroring (`recurse`, main.rs lines 149-178)

The `FileSystem` trait lives in the missing `fs` module, so its two operations
are abstract parameters; per spec §4.4 a failing operation leaves the
filesystem state unchanged (rollback), so the driver's state after a discarded
failure is the pre-call state. -/

/-- Filesystem-writer errors (spec §7 FileSystemError taxonomy). -/
inductive FsError where
  | collision
  | missingParent
  | diskFull
  deriving DecidableEq, Repr

/-- Modelled from the spec: the two `FileSystem` operations the driver calls
(§4.4 `make_dir` / `write_file`), abstract over the filesystem state `σ`. -/
structure FsOps (σ : Type) where
  make_dir : σ → List String → Except FsError σ
  write_file : σ → List String → List Nat → Except FsError σ

/-- A host directory entry as enumerated by `read_dir` (main.rs line 150):
either a subdirectory with its own entries, or a file with its contents. -/
inductive HostEntry where
  | dir (name : String) (children : List HostEntry)
  | file (name : String) (contents : List Nat)

/-- `recurse` (main.rs lines 149-175) over the entries of one directory, with
`vpath` the path of that directory relative to the source root.  A directory
entry is created with `make_dir(vpath).unwrap()` — failure aborts the run —
and then recursed into before the remaining entries are processed; a file
entry's `fs.write_file(vpath, &v);` has its `Result` discarded, so traversal
continues with the state unchanged on failure. -/
def recurse {σ : Type} (ops : FsOps σ) :
    List String → List HostEntry → σ → Except FsError σ
  | _, [], st => .ok st
  | vpath, .dir name children :: rest, st =>
    match ops.make_dir st (vpath ++ [name]) with
    | .error e => .error e
    | .ok st1 =>
      match recurse ops (vpath ++ [name]) children st1 with
      | .error e => .error e
      | .ok st2 => recurse ops vpath rest st2
  | vpath, .file name contents :: rest, st =>
    match ops.write_file st (vpath ++ [name]) contents with
    | .ok st1 => recurse ops vpath rest st1
    | .error _ => recurse ops vpath rest st

/-- A concrete filesystem model for exercising `recurse`: the state is the
list of paths created so far; `make_dir` records the path and fails on a
collision, `write_file` always reports a full disk. -/
def mirrorOps : FsOps (List (List String)) where
  make_dir := fun st p => if st.contains p then .error .collision else .ok (p :: st)
  write_file := fun _ _ _ => .error .diskFull

/-! ## Helper instances and lemmas -/

instance {ε α : Type} [DecidableEq ε] [DecidableEq α] : DecidableEq (Except ε α)
  | .ok a, .ok b => by
    cases decEq a b with
    | isTrue h => exact isTrue (by rw [h])
    | isFalse h => exact isFalse (by intro hc; cases hc; exact h rfl)
  | .ok _, .error _ => isFalse (by intro hc; cases hc)
  | .error _, .ok _ => isFalse (by intro hc; cases hc)
  | .error a, .error b => by
    cases decEq a b with
    | isTrue h => exact isTrue (by rw [h])
    | isFalse h => exact isFalse (by intro hc; cases hc; exact h rfl)

/-! ## Claims about `parse_size` -/

/-- C1: a size string made of a decimal numeric prefix followed by a unit
suffix in `kb | kib | mb | mib` (matched case-insensitively) parses to the
numeric value times the documented factor: kb = 1000, kib = 1024,
mb = 1000000, mib = 1048576. -/
theorem parse_size_documented_units (s : String) (f : Nat)
    (hnum : s.data.takeWhile Char.isDigit ≠ [])
    (hunit :
      ((s.data.dropWhile Char.isDigit).map Char.toLower = "kb".data ∧ f = 1000) ∨
      ((s.data.dropWhile Char.isDigit).map Char.toLower = "kib".data ∧ f = 1024) ∨
      ((s.data.dropWhile Char.isDigit).map Char.toLower = "mb".data ∧ f = 1000000) ∨
      ((s.data.dropWhile Char.isDigit).map Char.toLower = "mib".data ∧ f = 1048576)) :
    parse_size s = .ok (digitsVal (s.data.takeWhile Char.isDigit) * f) := by
  have hempty : (s.data.takeWhile Char.isDigit).isEmpty = false := by
    simpa [List.isEmpty_iff] using hnum
  rcases hunit with ⟨h, rfl⟩ | ⟨h, rfl⟩ | ⟨h, rfl⟩ | ⟨h, rfl⟩ <;>
    simp [parse_size, parseNum, hempty, h, UNITS, List.find?]

/-- Witness for C1 at the claim's own examples: `"1mib"` parses to 1048576 and
`"4MiB"` to 4194304. -/
theorem parse_size_documented_units_witness :
    parse_size "1mib" = .ok 1048576 ∧ parse_size "4MiB" = .ok 4194304 := by
  constructor
  · have h := parse_size_documented_units "1mib" 1048576 (by decide) (by decide)
    rw [h]; decide
  · have h := parse_size_documented_units "4MiB" 1048576 (by decide) (by decide)
    rw [h]; decide

/-- C6 counterexample: a size string with no leading digit, such as `"abc"`,
has suffix `"abc"` (the characters after the empty digit run), which is not a
recognized unit — but `parse_size` fails with the numeric-parse error of
main.rs line 192, not with the unknown-suffix error of line 214, so the error
does not identify an unrecognized suffix. -/
theorem parse_size_no_digits_counterexample :
    parse_size "abc" = .error (.badNumber "abc") ∧
      parse_size "abc" ≠ .error (.unknownSuffix "abc") := by
  decide

/-- Shared lemma: with a nonempty digit run and a suffix that lowercases to
none of the four table entries, `parse_size` reaches the unknown-suffix panic
of main.rs line 214. -/
theorem parse_size_unknown_suffix_aux (s : String)
    (hnum : s.data.takeWhile Char.isDigit ≠ [])
    (hunit : ∀ u ∈ ["kb", "kib", "mb", "mib"],
        (s.data.dropWhile Char.isDigit).map Char.toLower ≠ u.data) :
    parse_size s =
      .error (.unknownSuffix ⟨(s.data.dropWhile Char.isDigit).map Char.toLower⟩) := by
  have hempty : (s.data.takeWhile Char.isDigit).isEmpty = false := by
    simpa [List.isEmpty_iff] using hnum
  have hne : ∀ u ∈ (["kb", "kib", "mb", "mib"] : List String),
      ¬ (u = (⟨(s.data.dropWhile Char.isDigit).map Char.toLower⟩ : String)) := by
    intro u hu hc
    exact hunit u hu (congrArg String.data hc).symm
  have h1 := hne "kb" (by simp)
  have h2 := hne "kib" (by simp)
  have h3 := hne "mb" (by simp)
  have h4 := hne "mib" (by simp)
  have hfind : UNITS.find?
      (fun p => p.1 = (⟨(s.data.dropWhile Char.isDigit).map Char.toLower⟩ : String)) = none := by
    simp [UNITS, List.find?, h1, h2, h3, h4]
  simp [parse_size, parseNum, hempty, hfind]

/-- C6 as amended: for every size string that begins with at least one decimal
digit and whose suffix (the characters after the leading digits, compared
case-insensitively) is none of `kb | kib | mb | mib`, `parse_size` fails with
the unknown-suffix error naming the (lowercased) suffix. -/
theorem parse_size_unknown_suffix (s : String)
    (hnum : s.data.takeWhile Char.isDigit ≠ [])
    (hunit : ∀ u ∈ ["kb", "kib", "mb", "mib"],
        (s.data.dropWhile Char.isDigit).map Char.toLower ≠ u.data) :
    parse_size s =
      .error (.unknownSuffix ⟨(s.data.dropWhile Char.isDigit).map Char.toLower⟩) :=
  parse_size_unknown_suffix_aux s hnum hunit

/-- Witness for C6's amended theorem: `"7xyz"` fails with the unknown-suffix
error naming `"xyz"`. -/
theorem parse_size_unknown_suffix_witness :
    parse_size "7xyz" = .error (.unknownSuffix "xyz") := by
  have h := parse_size_unknown_suffix "7xyz" (by decide) (by decide)
  rw [h]; decide

/-- C10: a size string made of decimal digits only (e.g. `"1024"`) is rejected
with the unknown-suffix error on the empty suffix: `parse_size` has no
plain-bytes interpretation, since the empty string matches no entry of the
unit table. -/
theorem parse_size_digits_only (s : String)
    (hne : s.data ≠ [])
    (hdig : ∀ c ∈ s.data, c.isDigit) :
    parse_size s = .error (.unknownSuffix "") := by
  have htake : s.data.takeWhile Char.isDigit = s.data := by
    simpa [List.takeWhile_eq_self_iff] using hdig
  have hdrop : s.data.dropWhile Char.isDigit = [] := by
    simpa [List.dropWhile_eq_nil_iff] using hdig
  have h := parse_size_unknown_suffix_aux s (by simpa [htake] using hne)
    (by intro u hu; fin_cases hu <;> simp [hdrop])
  simpa [hdrop] using h

/-- Witness for C10: `"1024"` is rejected with the empty unknown suffix. -/
theorem parse_size_digits_only_witness :
    parse_size "1024" = .error (.unknownSuffix "") := by
  exact parse_size_digits_only "1024" (by decide) (by decide)

/-! ## Claims about the Virtual Disk -/

/-- C5: on a disk of `sector_count` sectors, for every index `i < sector_count`
and 512-byte buffer `b`, `write_sector i b` succeeds and a read of sector `i`
then returns `b`; and `write_sector sector_count b` fails with a BoundsError. -/
theorem write_sector_roundtrip_and_bounds (d : RamDisk) (i : Nat) (b : List Nat)
    (hi : i < d.sector_count) (hb : b.length = 512) :
    (∃ d', d.write_sector i b = .ok d' ∧ d'.read_sector i = .ok b) ∧
      d.write_sector d.sector_count b =
        .error (.sectorOutOfRange d.sector_count d.sector_count) := by
  constructor
  · refine ⟨{ d with data := fun j => if j = i then b else d.data j }, ?_, ?_⟩
    · unfold RamDisk.write_sector
      rw [if_pos hi]
    · unfold RamDisk.read_sector
      rw [if_pos (show i <
          ({ d with data := fun j => if j = i then b else d.data j } : RamDisk).sector_count
        from hi)]
      simp
  · unfold RamDisk.write_sector
    rw [if_neg (lt_irrefl _)]

/-- Witness for C5 on a 4-sector disk, sector 1, the all-7 buffer. -/
theorem write_sector_roundtrip_and_bounds_witness :
    (∃ d', (RamDisk.new 4).write_sector 1 (List.replicate 512 7) = .ok d' ∧
        d'.read_sector 1 = .ok (List.replicate 512 7)) ∧
      (RamDisk.new 4).write_sector 4 (List.replicate 512 7) =
        .error (.sectorOutOfRange 4 4) := by
  exact write_sector_roundtrip_and_bounds (RamDisk.new 4) 1 (List.replicate 512 7)
    (by decide) (List.length_replicate 512 7)

/-! ## Claims about the driver's disk-setup phase -/

theorem writeSectorLossy_sector_count (d : RamDisk) (i : Nat) (b : List Nat) :
    (writeSectorLossy d i b).sector_count = d.sector_count := by
  unfold writeSectorLossy RamDisk.write_sector
  split
  · rename_i h
    split at h <;> cases h <;> rfl
  · rfl

theorem writeSectorLossy_table (d : RamDisk) (i : Nat) (b : List Nat) :
    (writeSectorLossy d i b).table = d.table := by
  unfold writeSectorLossy RamDisk.write_sector
  split
  · rename_i h
    split at h <;> cases h <;> rfl
  · rfl

theorem writeSectorLossy_data (d : RamDisk) (i : Nat) (b : List Nat) (j : Nat) :
    (writeSectorLossy d i b).data j =
      if i < d.sector_count ∧ j = i then b else d.data j := by
  by_cases h : i < d.sector_count <;>
    simp [writeSectorLossy, RamDisk.write_sector, h]

theorem copyBootAux_succ (bytes : List Nat) (m : Nat) (d : RamDisk) :
    copyBootAux bytes (m + 1) d =
      writeSectorLossy (copyBootAux bytes m d) m (chunk512 bytes m) := by
  unfold copyBootAux
  rw [List.range_succ, List.foldl_append, List.foldl_cons, List.foldl_nil]

theorem copyBootAux_sector_count (bytes : List Nat) (m : Nat) (d : RamDisk) :
    (copyBootAux bytes m d).sector_count = d.sector_count := by
  induction m with
  | zero => rfl
  | succ m ih => rw [copyBootAux_succ, writeSectorLossy_sector_count, ih]

theorem copyBootAux_table (bytes : List Nat) (m : Nat) (d : RamDisk) :
    (copyBootAux bytes m d).table = d.table := by
  induction m with
  | zero => rfl
  | succ m ih => rw [copyBootAux_succ, writeSectorLossy_table, ih]

theorem copyBootAux_data (bytes : List Nat) (m : Nat) (d : RamDisk) (j : Nat) :
    (copyBootAux bytes m d).data j =
      if j < m ∧ j < d.sector_count then chunk512 bytes j else d.data j := by
  induction m with
  | zero => simp [copyBootAux]
  | succ m ih =>
    rw [copyBootAux_succ, writeSectorLossy_data, copyBootAux_sector_count, ih]
    split_ifs with h1 h2 h3 h4 h5 <;>
      first
        | rfl
        | (exfalso; omega)
        | (rw [h1.2])

theorem copyBoot_sector_count (d : RamDisk) (bytes : List Nat) :
    (copyBoot d bytes).sector_count = d.sector_count := by
  unfold copyBoot
  rw [copyBootAux_sector_count]

theorem copyBoot_table (d : RamDisk) (bytes : List Nat) :
    (copyBoot d bytes).table = d.table := by
  unfold copyBoot
  rw [copyBootAux_table]

theorem getD_replicate_zero (k m : Nat) : (List.replicate k (0 : Nat)).getD m 0 = 0 := by
  induction k generalizing m with
  | zero => rfl
  | succ k ih =>
    cases m with
    | zero => rfl
    | succ m => exact ih m

theorem chunk512_length (bytes : List Nat) (i : Nat) : (chunk512 bytes i).length = 512 := by
  have h : ((bytes.drop (512 * i)).take 512).length ≤ 512 := List.length_take_le _ _
  simp only [chunk512, List.length_append, List.length_replicate]
  omega

theorem chunk512_getD (bytes : List Nat) (i j : Nat) (hj : j < 512) :
    (chunk512 bytes i).getD j 0 =
      if 512 * i + j < bytes.length then bytes.getD (512 * i + j) 0 else 0 := by
  have hlen : ((bytes.drop (512 * i)).take 512).length = min 512 (bytes.length - 512 * i) := by
    simp [List.length_take, List.length_drop]
  by_cases hc : j < ((bytes.drop (512 * i)).take 512).length
  · simp only [chunk512]
    rw [List.getD_append _ _ _ _ hc]
    rw [List.getD_eq_getD_get?, List.get?_take hj, List.get?_drop,
      ← List.getD_eq_getD_get?]
    rw [if_pos (show 512 * i + j < bytes.length by omega)]
  · simp only [chunk512]
    rw [List.getD_append_right _ _ _ _ (le_of_not_lt hc)]
    rw [getD_replicate_zero]
    rw [if_neg (show ¬(512 * i + j < bytes.length) by omega)]

/-- C3: the driver copies the bootloader's raw bytes into sectors
`0 … k - 1`, `k = ⌈b / 512⌉`: every sector index below `k` (and within the
disk) holds the corresponding zero-padded 512-byte chunk of the bootloader —
byte `j` of chunk `i` is bootloader byte `512·i + j`, or zero past the end —
and every sector at index `k` or beyond is untouched (still zero-filled). -/
theorem bootloader_copied_to_leading_sectors (n : Nat) (bytes : List Nat) (i : Nat) :
    (copyBoot (RamDisk.new n) bytes).sector_count = n ∧
      ((copyBoot (RamDisk.new n) bytes).data i =
        if i < (bytes.length + 511) / 512 ∧ i < n then chunk512 bytes i
        else List.replicate 512 0) ∧
      (chunk512 bytes i).length = 512 ∧
      (∀ j, j < 512 → (chunk512 bytes i).getD j 0 =
        if 512 * i + j < bytes.length then bytes.getD (512 * i + j) 0 else 0) := by
  refine ⟨?_, ?_, chunk512_length bytes i, fun j hj => chunk512_getD bytes i j hj⟩
  · rw [copyBoot_sector_count]; rfl
  · unfold copyBoot
    rw [copyBootAux_data]
    rfl

/-- Witness for C3: a 3-byte bootloader on a 128-sector disk fills sector 0
with `1, 2, 3` then zeros, and leaves sector 1 zero-filled. -/
theorem bootloader_copied_to_leading_sectors_witness :
    (copyBoot (RamDisk.new 128) [1, 2, 3]).data 0 = chunk512 [1, 2, 3] 0 ∧
      (chunk512 [1, 2, 3] 0).getD 0 0 = 1 ∧
      (chunk512 [1, 2, 3] 0).getD 2 0 = 3 ∧
      (chunk512 [1, 2, 3] 0).getD 3 0 = 0 ∧
      (copyBoot (RamDisk.new 128) [1, 2, 3]).data 1 = List.replicate 512 0 := by
  have h0 := bootloader_copied_to_leading_sectors 128 [1, 2, 3] 0
  have h1 := bootloader_copied_to_leading_sectors 128 [1, 2, 3] 1
  refine ⟨?_, ?_, ?_, ?_, ?_⟩
  · rw [h0.2.1]; exact if_pos (by decide)
  · rw [h0.2.2.2 0 (by decide)]; decide
  · rw [h0.2.2.2 2 (by decide)]; decide
  · rw [h0.2.2.2 3 (by decide)]; decide
  · rw [h1.2.1]; exact if_neg (by decide)

/-- Reduction of the setup phase below the minimum size: the `assert!` of
main.rs line 115 fires. -/
theorem execSetup_eq_error (cfg : Config) (b : List Nat) (h : cfg.dsize / 512 < 128) :
    cfg.execSetup b = .error .diskTooSmall := by
  simp [Config.execSetup, h]

/-- Reduction of the setup phase at or above the minimum size: the produced
disk is the bootloader-initialised disk with the single slot-0 descriptor. -/
theorem execSetup_eq_ok (cfg : Config) (b : List Nat) (h : 128 ≤ cfg.dsize / 512) :
    cfg.execSetup b = .ok
      { sector_count := (copyBoot (RamDisk.new (cfg.dsize / 512)) b).sector_count,
        data := (copyBoot (RamDisk.new (cfg.dsize / 512)) b).data,
        table := fun j =>
          if j = 0 then
            some { format := .Fat32, size := cfg.dsize / 512 - 64,
                   start := 64, bootable := true }
          else (copyBoot (RamDisk.new (cfg.dsize / 512)) b).table j } := by
  have hsc : (copyBoot (RamDisk.new (cfg.dsize / 512)) b).sector_count = cfg.dsize / 512 := by
    rw [copyBoot_sector_count]; rfl
  simp only [Config.execSetup, set_pinfo]
  rw [if_neg (show ¬(cfg.dsize / 512 < 128) by omega)]
  rw [if_neg (show ¬((0 : Nat) ≥ 4) by omega)]
  rw [if_pos (show (64 : Nat) + (cfg.dsize / 512 - 64) ≤
      (copyBoot (RamDisk.new (cfg.dsize / 512)) b).sector_count by rw [hsc]; omega)]

/-- C4: a requested byte size yielding fewer than 128 sectors (at 512 bytes per
sector) is rejected by the `assert!` of main.rs line 115 before any disk is
built; a request of at least 128 sectors passes the minimum-size check and the
setup phase completes. -/
theorem execSetup_min_size (cfg : Config) (b : List Nat) :
    (cfg.dsize / 512 < 128 → cfg.execSetup b = .error .diskTooSmall) ∧
      (128 ≤ cfg.dsize / 512 → ∃ d, cfg.execSetup b = .ok d) := by
  exact ⟨execSetup_eq_error cfg b, fun h => ⟨_, execSetup_eq_ok cfg b h⟩⟩

/-- Witness for C4: 65024 bytes (126 sectors) is rejected, 65536 bytes
(128 sectors) passes. -/
theorem execSetup_min_size_witness :
    ({ dsize := 65024, src := "s", boot_path := "b", out_path := "o" } : Config).execSetup []
        = .error .diskTooSmall ∧
      ∃ d, ({ dsize := 65536, src := "s", boot_path := "b", out_path := "o" } : Config).execSetup []
        = .ok d := by
  constructor
  · exact (execSetup_min_size { dsize := 65024, src := "s", boot_path := "b", out_path := "o" } []).1
      (by decide)
  · exact (execSetup_min_size { dsize := 65536, src := "s", boot_path := "b", out_path := "o" } []).2
      (by decide)

/-- C2: whenever the setup phase succeeds, the partition table holds exactly
one descriptor — slot 0, recording format Fat32, start 64,
size `total_sectors - 64`, bootable — where `total_sectors = dsize / 512`;
every other slot is empty, and the disk has `total_sectors` sectors. -/
theorem execSetup_single_descriptor (cfg : Config) (b : List Nat) (d : RamDisk)
    (h : cfg.execSetup b = .ok d) :
    d.table 0 = some { format := .Fat32, size := cfg.dsize / 512 - 64,
                       start := 64, bootable := true } ∧
      (∀ s, s ≠ 0 → d.table s = none) ∧
      d.sector_count = cfg.dsize / 512 := by
  by_cases hge : 128 ≤ cfg.dsize / 512
  · rw [execSetup_eq_ok cfg b hge] at h
    cases h
    refine ⟨by simp, ?_, ?_⟩
    · intro s hs
      simp only [if_neg hs]
      rw [copyBoot_table]
      rfl
    · show (copyBoot (RamDisk.new (cfg.dsize / 512)) b).sector_count = cfg.dsize / 512
      rw [copyBoot_sector_count]; rfl
  · rw [execSetup_eq_error cfg b (by omega)] at h
    cases h

/-- Witness for C2 on a 65536-byte (128-sector) request with an empty
bootloader. -/
theorem execSetup_single_descriptor_witness :
    ∃ d, ({ dsize := 65536, src := "s", boot_path := "b", out_path := "o" } : Config).execSetup []
        = .ok d ∧
      d.table 0 = some { format := .Fat32, size := 64, start := 64, bootable := true } ∧
      d.table 1 = none ∧ d.table 2 = none ∧ d.table 3 = none ∧
      d.sector_count = 128 := by
  obtain ⟨d, hd⟩ : ∃ d,
      ({ dsize := 65536, src := "s", boot_path := "b", out_path := "o" } : Config).execSetup []
        = .ok d := ⟨_, rfl⟩
  have h := execSetup_single_descriptor _ [] d hd
  refine ⟨d, hd, ?_, h.2.1 1 (by decide), h.2.1 2 (by decide), h.2.1 3 (by decide), ?_⟩
  · rw [h.1]; rfl
  · rw [h.2.2]; rfl

/-! ## Claims about configuration construction -/

/-- C7: when no `-b` (`--bootloader`) argument is supplied (docopt yields the
empty string), `Config::new` fails with the missing-bootloader configuration
error (main.rs line 67); when a bootloader path is supplied but cannot be
opened, it fails with the unreadable-bootloader configuration error
(main.rs lines 72-74). -/
theorem config_requires_bootloader (args : ArgvMap) (hfs : HostFS) (n : Nat)
    (hsize : parse_size args.size = .ok n) :
    (args.boot = "" → Config.new args hfs = .error .missingBootloader) ∧
      (args.boot ≠ "" → hfs.openable args.boot = false →
        Config.new args hfs = .error (.unreadableBootloader args.boot)) := by
  constructor
  · intro h
    simp [Config.new, hsize, h]
  · intro h hopen
    simp [Config.new, hsize, h, hopen]

/-- Witness for C7: absent `-b`, and an unopenable `boot.bin`. -/
theorem config_requires_bootloader_witness :
    Config.new { size := "4MiB", boot := "", out := "", dir := "d" }
        { openable := fun _ => true, creatable := fun _ => true } =
        .error .missingBootloader ∧
      Config.new { size := "4MiB", boot := "boot.bin", out := "", dir := "d" }
        { openable := fun _ => false, creatable := fun _ => true } =
        .error (.unreadableBootloader "boot.bin") := by
  exact ⟨(config_requires_bootloader _ _ 4194304 (by decide)).1 rfl,
    (config_requires_bootloader _ _ 4194304 (by decide)).2 (by decide) rfl⟩

/-- C8: when `-o` (`--out`) is absent, the output path is the source directory
path with its extension replaced by `.disk` (main.rs lines 77-85). -/
theorem config_default_out (args : ArgvMap) (hfs : HostFS) (n : Nat)
    (hsize : parse_size args.size = .ok n)
    (hboot : args.boot ≠ "") (hopen : hfs.openable args.boot = true)
    (hout : args.out = "")
    (hcreate : hfs.creatable (set_extension args.dir "disk") = true) :
    Config.new args hfs =
      .ok { dsize := n, src := args.dir, boot_path := args.boot,
            out_path := set_extension args.dir "disk" } := by
  simp [Config.new, hsize, hboot, hopen, hout, hcreate]

/-- Witness for C8 at the claim's example: source `bin/fs` yields output
`bin/fs.disk`. -/
theorem config_default_out_witness :
    Config.new { size := "4MiB", boot := "boot.bin", out := "", dir := "bin/fs" }
        { openable := fun _ => true, creatable := fun _ => true } =
      .ok { dsize := 4194304, src := "bin/fs", boot_path := "boot.bin",
            out_path := "bin/fs.disk" } := by
  have h := config_default_out
    { size := "4MiB", boot := "boot.bin", out := "", dir := "bin/fs" }
    { openable := fun _ => true, creatable := fun _ => true } 4194304
    (by decide) (by decide) rfl rfl rfl
  rw [h]; decide

/-! ## Claim about directory-tree mirroring -/

/-- C9: the driver discards `write_file`'s result — a failing file write
raises no error and traversal continues with the remaining entries and the
unchanged filesystem state (so the image is still serialized without that
file's contents) — while a failing `make_dir` (called with `.unwrap()`)
aborts the run. -/
theorem recurse_discards_write_file_failure {σ : Type} (ops : FsOps σ)
    (vpath : List String) (st : σ) :
    (∀ name contents rest e,
        ops.write_file st (vpath ++ [name]) contents = .error e →
          recurse ops vpath (.file name contents :: rest) st =
            recurse ops vpath rest st) ∧
      (∀ name children rest e,
        ops.make_dir st (vpath ++ [name]) = .error e →
          recurse ops vpath (.dir name children :: rest) st = .error e) := by
  constructor
  · intro name contents rest e h
    simp [recurse, h]
  · intro name children rest e h
    simp [recurse, h]

/-- Witness for C9 on the concrete `mirrorOps` model: a failing file write is
skipped and traversal continues; a colliding `make_dir` aborts. -/
theorem recurse_discards_write_file_failure_witness :
    recurse mirrorOps [] [HostEntry.file "f" [1], HostEntry.dir "d" []] [] =
        recurse mirrorOps [] [HostEntry.dir "d" []] [] ∧
      recurse mirrorOps [] [HostEntry.dir "d" []] [["d"]] = .error .collision := by
  exact ⟨(recurse_discards_write_file_failure mirrorOps [] []).1
      "f" [1] [HostEntry.dir "d" []] .diskFull rfl,
    (recurse_discards_write_file_failure mirrorOps [] [["d"]]).2
      "d" [] [] .collision rfl⟩

end Mkdisk
